import Mathlib

/-!
Verification of the Spark Integration Hub operator's reconciliation core.

This file gives a shallow embedding, in Lean, of the parts of the operator
that the specification's testable properties talk about:

* `src/common/utils.py` — the `DotSerializer` key-escaping transform;
* `src/core/domain.py` — the connection-info value objects
  (`S3ConnectionInfo`, `AzureStorageConnectionInfo`, `PushGatewayInfo`,
  `HubConfiguration`, `LokiURL`) and `ServiceAccount`;
* `src/core/context.py` — `Status` and `Context.services_accounts`;
* `src/managers/integration_hub.py` — `IntegrationHubConfig`
  (`_ssl_enabled`, the per-backend configuration fragments, `to_dict`,
  `contents`) and `IntegrationHubManager`
  (`_compare_and_update_file`, `update`);
* `src/events/base.py` — `BaseEventHandler.get_app_status`;
* `src/events/provider.py` — the service-account requested/released handlers;
* `src/events/configuration_actions.py` — the add/list config actions and
  `_parse_property_line`.

Modelling conventions:

* Python `str` values are Lean `String`s; string algorithms are carried out
  on `List Char` (`String.data`) so that every definition reduces inside the
  kernel.  Python compares and sorts strings lexicographically by code
  point, which `lexLt` below implements.
* Python `dict[str, str]` values are modelled as association lists kept
  sorted by key with unique keys (`Dict`).  A Python dict is observed in
  this code base only through key lookup, content equality, and iteration
  over `sorted(keys)`, all of which are invariant under this canonical
  representation; `|`-merge becomes a right-biased fold of sorted inserts.
* External collaborators that live outside the reconciliation core
  (`S3Manager.verify` — network credential check, `managers/s3.py` is not
  shipped in this tree — and `KubernetesManager.trusted`) are modelled as
  boolean oracles, exactly as the spec's §6 treats them.
* Side effects on the workload and on relation data are modelled by an
  explicit state plus an event trace.
-/

/-- Lexicographic code-point comparison of character lists: the order Python
uses for `sorted` over `str` keys. -/
def lexLt : List Char → List Char → Bool
  | [], [] => false
  | [], _ :: _ => true
  | _ :: _, [] => false
  | a :: as, b :: bs =>
    if a.toNat < b.toNat then true
    else if b.toNat < a.toNat then false
    else lexLt as bs

/-- Python `str.replace(old, new)` on character lists: scan left to right,
replacing non-overlapping occurrences of `old`.  The `fuel` argument makes
the recursion structural; it is initialised to the length of the scanned
list, which suffices because every step consumes at least one character
(all patterns used in the source are non-empty). -/
def pyReplaceAux (old new : List Char) : Nat → List Char → List Char
  | 0, s => s
  | _ + 1, [] => []
  | fuel + 1, c :: rest =>
    if old.isPrefixOf (c :: rest) then
      new ++ pyReplaceAux old new fuel ((c :: rest).drop old.length)
    else
      c :: pyReplaceAux old new fuel rest

/-- Python `s.replace(old, new)` for strings. -/
def pyReplace (s old new : String) : String :=
  ⟨pyReplaceAux old.data new.data s.data.length s.data⟩

/-- Python `pat in s` (substring containment) on character lists. -/
def containsSub (pat : List Char) : List Char → Bool
  | [] => pat.isEmpty
  | c :: rest => pat.isPrefixOf (c :: rest) || containsSub pat rest

namespace DotSerializer

/-- Default `replacement_char` of `DotSerializer` (`src/common/utils.py`);
every instantiation in the code base uses the default. -/
def replacementChar : String := "_"

/-- The `_SPECIAL_CHAR` constant of `DotSerializer`, byte-for-byte as it
appears in `src/common/utils.py` (a two-character string). -/
def specialChar : String := "ยง"

/-- `DotSerializer.serialize`: double every replacement character, then
turn every dot into the replacement character. -/
def serialize (inputString : String) : String :=
  pyReplace (pyReplace inputString replacementChar (replacementChar ++ replacementChar))
    "." replacementChar

/-- `DotSerializer.deserialize`: fold doubled replacement characters into
the sentinel, turn remaining replacement characters back into dots, then
restore the sentinel. -/
def deserialize (inputString : String) : String :=
  pyReplace
    (pyReplace (pyReplace inputString (replacementChar ++ replacementChar) specialChar)
      replacementChar ".")
    specialChar replacementChar

end DotSerializer

/-- Python `dict[str, str]` in canonical form: an association list sorted
strictly by key.  Lookup, content equality and `sorted(keys)` iteration all
agree with Python dict semantics on this representation. -/
abbrev Dict := List (String × String)

/-- Strict key order used for the canonical dict representation. -/
abbrev keyLt (p q : String × String) : Prop := lexLt p.1.data q.1.data = true

/-- Non-strict key order (for the spec-side sort). -/
abbrev keyLe (p q : String × String) : Prop := lexLt q.1.data p.1.data = false

instance : DecidableRel keyLt := fun _ _ => inferInstanceAs (Decidable (_ = true))

instance : DecidableRel keyLe := fun _ _ => inferInstanceAs (Decidable (_ = false))

/-- A dict in canonical form: keys strictly ascending. -/
abbrev DSorted (d : Dict) : Prop := d.Pairwise keyLt

/-- Insert (or overwrite) a key in a canonical dict, keeping it sorted.
This models binding a key in a Python dict. -/
def dictInsert (k v : String) : Dict → Dict
  | [] => [(k, v)]
  | (k2, v2) :: rest =>
    if lexLt k.data k2.data then (k, v) :: (k2, v2) :: rest
    else if k = k2 then (k, v) :: rest
    else (k2, v2) :: dictInsert k v rest

/-- Build a dict from a list of bindings, later bindings overriding earlier
ones — the semantics of constructing a Python dict from those bindings and
of the left-to-right `|` merge chain. -/
def dictOfList (l : List (String × String)) : Dict :=
  l.foldl (fun d p => dictInsert p.1 p.2 d) []

/-- Raw relation data (a Juju databag): a plain association list observed
through `get`-style lookup. -/
abbrev RelationData := List (String × String)

/-- `S3ConnectionInfo` (`src/core/domain.py`): read-only view over the S3
relation databag. -/
structure S3ConnectionInfo where
  relation_data : RelationData

namespace S3ConnectionInfo

/-- `relation_data.get("endpoint", None)`. -/
def endpoint (s : S3ConnectionInfo) : Option String := s.relation_data.lookup "endpoint"

/-- `relation_data.get("access-key", "")`. -/
def access_key (s : S3ConnectionInfo) : String := (s.relation_data.lookup "access-key").getD ""

/-- `relation_data.get("secret-key", "")`. -/
def secret_key (s : S3ConnectionInfo) : String := (s.relation_data.lookup "secret-key").getD ""

/-- `relation_data["path"]`.  Python raises `KeyError` when the key is
absent; the configurations proved about below always populate it, so the
absent case is modelled as the empty string. -/
def path (s : S3ConnectionInfo) : String := (s.relation_data.lookup "path").getD ""

/-- `relation_data["bucket"]` (same `KeyError` caveat as `path`). -/
def bucket (s : S3ConnectionInfo) : String := (s.relation_data.lookup "bucket").getD ""

/-- `log_dir`: `s3a://{bucket}/{path}`. -/
def log_dir (s : S3ConnectionInfo) : String := "s3a://" ++ s.bucket ++ "/" ++ s.path

/-- `file_upload_path`: `s3a://{bucket}/`. -/
def file_upload_path (s : S3ConnectionInfo) : String := "s3a://" ++ s.bucket ++ "/"

/-- `warehouse_path`: `s3a://{bucket}/warehouse`. -/
def warehouse_path (s : S3ConnectionInfo) : String := "s3a://" ++ s.bucket ++ "/warehouse"

end S3ConnectionInfo

/-- Python `str.lower()`: ASCII case folding (the protocol names this code
base lowers and compares are ASCII). -/
def pyLower (s : String) : String :=
  ⟨s.data.map fun c => if 65 ≤ c.toNat && c.toNat ≤ 90 then Char.ofNat (c.toNat + 32) else c⟩

/-- `AzureStorageConnectionInfo` (`src/core/domain.py`). -/
structure AzureStorageConnectionInfo where
  relation_data : RelationData

namespace AzureStorageConnectionInfo

/-- `relation_data["connection-protocol"].lower()` (`KeyError` caveat as for
S3 `path`). -/
def connection_protocol (a : AzureStorageConnectionInfo) : String :=
  pyLower ((a.relation_data.lookup "connection-protocol").getD "")

/-- `relation_data["secret-key"]`. -/
def secret_key (a : AzureStorageConnectionInfo) : String :=
  (a.relation_data.lookup "secret-key").getD ""

/-- `relation_data.get("path", "")`. -/
def path (a : AzureStorageConnectionInfo) : String := (a.relation_data.lookup "path").getD ""

/-- `relation_data["container"]`. -/
def container (a : AzureStorageConnectionInfo) : String :=
  (a.relation_data.lookup "container").getD ""

/-- `relation_data["storage-account"]`. -/
def storage_account (a : AzureStorageConnectionInfo) : String :=
  (a.relation_data.lookup "storage-account").getD ""

/-- Protocol-dependent endpoint; any protocol other than abfs(s)/wasb(s)
yields the empty string (the source's declared `str | None` notwithstanding,
the fall-through branch returns `""`). -/
def endpoint (a : AzureStorageConnectionInfo) : String :=
  if a.connection_protocol = "abfs" ∨ a.connection_protocol = "abfss" then
    a.connection_protocol ++ "://" ++ a.container ++ "@" ++ a.storage_account ++
      ".dfs.core.windows.net"
  else if a.connection_protocol = "wasb" ∨ a.connection_protocol = "wasbs" then
    a.connection_protocol ++ "://" ++ a.container ++ "@" ++ a.storage_account ++
      ".blob.core.windows.net"
  else ""

/-- `log_dir`: `{endpoint}/{path}` when an endpoint exists, else `""`. -/
def log_dir (a : AzureStorageConnectionInfo) : String :=
  if a.endpoint ≠ "" then a.endpoint ++ "/" ++ a.path else ""

/-- `file_upload_path`: `{endpoint}/` when an endpoint exists, else `""`. -/
def file_upload_path (a : AzureStorageConnectionInfo) : String :=
  if a.endpoint ≠ "" then a.endpoint ++ "/" else ""

/-- `warehouse_path`: `{endpoint}/warehouse` when an endpoint exists, else `""`. -/
def warehouse_path (a : AzureStorageConnectionInfo) : String :=
  if a.endpoint ≠ "" then a.endpoint ++ "/warehouse" else ""

end AzureStorageConnectionInfo

/-- `PushGatewayInfo` (`src/core/domain.py`).  The source's `endpoint`
property JSON-decodes the `push-endpoint` relation field and strips the
URL scheme; the configuration logic consumes only the resulting value, so
the derived endpoint is carried directly. -/
structure PushGatewayInfo where
  endpoint : Option String

/-- `LokiURL` (`src/core/domain.py`).  The source's `url` property
JSON-decodes the `endpoint` relation field; only the resulting URL is
consumed downstream, so it is carried directly. -/
structure LokiURL where
  url : Option String

/-- `HubConfiguration` (`src/core/domain.py`): the peer-relation databag of
user-supplied Spark configuration overrides. -/
structure HubConfiguration where
  relation_data : RelationData

/-- Python single-key `dict.update`: replace in place when present,
append otherwise (used for raw databag writes). -/
def upsertRaw : List (String × String) → String → String → List (String × String)
  | [], k, v => [(k, v)]
  | (k2, v2) :: rest, k, v =>
    if k2 = k then (k2, v) :: rest else (k2, v2) :: upsertRaw rest k v

namespace HubConfiguration

/-- The overridden `HubConfiguration.update`: serialize every key with the
`DotSerializer` before writing into the peer databag (the workaround for
the storage rejecting literal dots in keys). -/
def updateData (hc : HubConfiguration) (items : List (String × String)) : HubConfiguration :=
  ⟨items.foldl (fun d p => upsertRaw d (DotSerializer.serialize p.1) p.2) hc.relation_data⟩

/-- `HubConfiguration.spark_configurations`: deserialize every stored key
(dict comprehension; later entries win on collision of deserialized keys). -/
def spark_configurations (hc : HubConfiguration) : Dict :=
  dictOfList (hc.relation_data.map fun p => (DotSerializer.deserialize p.1, p.2))

end HubConfiguration

/-- `IntegrationHubConfig` (`src/managers/integration_hub.py`).  The source
wraps `s3` in an `S3Manager` whose `verify()` performs a network credential
check (`managers/s3.py` is not part of this tree); its outcome is the
boolean oracle `s3Verify`, consulted exactly where the source calls
`s3.verify()`. -/
structure IntegrationHubConfig where
  s3 : Option S3ConnectionInfo
  s3Verify : Bool
  azure_storage : Option AzureStorageConnectionInfo
  pushgateway : Option PushGatewayInfo
  hub_conf : Option HubConfiguration
  loki_url : Option LokiURL

namespace IntegrationHubConfig

/-- `IntegrationHubConfig._base_conf` is the empty dict. -/
def base_conf : List (String × String) := []

/-- `IntegrationHubConfig._ssl_enabled`: `"true"` if the endpoint is falsy,
starts with `https:`, or contains `:443`; `"false"` otherwise. -/
def ssl_enabled (endpoint : Option String) : String :=
  match endpoint with
  | none => "true"
  | some e =>
    if e = "" || "https:".data.isPrefixOf e.data || containsSub ":443".data e.data then "true"
    else "false"

/-- `IntegrationHubConfig._s3_conf` as the binding list of the source's dict
literal, in source order. -/
def s3_conf (c : IntegrationHubConfig) : List (String × String) :=
  match c.s3 with
  | some s3 =>
    if c.s3Verify then
      [("spark.hadoop.fs.s3a.path.style.access", "true"),
       ("spark.eventLog.enabled", "true"),
       ("spark.hadoop.fs.s3a.endpoint",
         if (s3.endpoint.getD "") = "" then "https://s3.amazonaws.com" else s3.endpoint.getD ""),
       ("spark.hadoop.fs.s3a.access.key", s3.access_key),
       ("spark.hadoop.fs.s3a.secret.key", s3.secret_key),
       ("spark.eventLog.dir", s3.log_dir),
       ("spark.history.fs.logDirectory", s3.log_dir),
       ("spark.hadoop.fs.s3a.aws.credentials.provider",
         "org.apache.hadoop.fs.s3a.SimpleAWSCredentialsProvider"),
       ("spark.hadoop.fs.s3a.connection.ssl.enabled", ssl_enabled s3.endpoint),
       ("spark.kubernetes.file.upload.path", s3.file_upload_path),
       ("spark.sql.warehouse.dir", s3.warehouse_path)]
    else []
  | none => []

/-- `IntegrationHubConfig._azure_storage_conf`: five fixed bindings plus a
protocol-dependent account-key binding. -/
def azure_storage_conf (c : IntegrationHubConfig) : List (String × String) :=
  match c.azure_storage with
  | some az =>
    [("spark.eventLog.enabled", "true"),
     ("spark.eventLog.dir", az.log_dir),
     ("spark.history.fs.logDirectory", az.log_dir),
     ("spark.kubernetes.file.upload.path", az.file_upload_path),
     ("spark.sql.warehouse.dir", az.warehouse_path)] ++
    (if pyLower az.connection_protocol = "abfss" ∨ pyLower az.connection_protocol = "abfs" then
      [("spark.hadoop.fs.azure.account.key." ++ az.storage_account ++ ".dfs.core.windows.net",
        az.secret_key)]
    else if pyLower az.connection_protocol = "wasb" ∨ pyLower az.connection_protocol = "wasbs" then
      [("spark.hadoop.fs.azure.account.key." ++ az.storage_account ++ ".blob.core.windows.net",
        az.secret_key)]
    else [])
  | none => []

/-- `IntegrationHubConfig._pushgateway_conf`.  The source stores
`pg.endpoint` (possibly `None`) as the address value; `None` and `""` are
indistinguishable downstream (both falsy), so `None` is carried as `""`. -/
def pushgateway_conf (c : IntegrationHubConfig) : List (String × String) :=
  match c.pushgateway with
  | some pg =>
    [("spark.metrics.conf.*.sink.prometheus.pushgateway-address", pg.endpoint.getD ""),
     ("spark.metrics.conf.*.sink.prometheus.class",
       "org.apache.spark.banzaicloud.metrics.sink.PrometheusSink"),
     ("spark.metrics.conf.*.sink.prometheus.enable-dropwizard-collector", "true"),
     ("spark.metrics.conf.*.sink.prometheus.period", "5"),
     ("spark.metrics.conf.*.sink.prometheus.metrics-name-capture-regex",
       "([a-z0-9]*_[a-z0-9]*_[a-z0-9]*_)(.+)"),
     ("spark.metrics.conf.*.sink.prometheus.metrics-name-replacement", "$2")]
  | none => []

/-- `IntegrationHubConfig._action_conf`: the user-supplied overrides. -/
def action_conf (c : IntegrationHubConfig) : List (String × String) :=
  match c.hub_conf with
  | some hc => hc.spark_configurations
  | none => []

/-- `IntegrationHubConfig._log_forwarding_conf`. -/
def log_forwarding_conf (c : IntegrationHubConfig) : List (String × String) :=
  match c.loki_url with
  | some l =>
    [("spark.executorEnv.LOKI_URL", l.url.getD ""),
     ("spark.kubernetes.driverEnv.LOKI_URL", l.url.getD "")]
  | none => []

/-- `IntegrationHubConfig.to_dict`: the `|`-merge chain
`base | s3 | azure | pushgateway | action | log-forwarding`, i.e. the
right-biased union of the binding lists in that order. -/
def to_dict (c : IntegrationHubConfig) : Dict :=
  dictOfList (base_conf ++ s3_conf c ++ azure_storage_conf c ++ pushgateway_conf c ++
    action_conf c ++ log_forwarding_conf c)

/-- `IntegrationHubConfig.contents`: iterate the keys in sorted order and
emit a `key=value` line for every truthy (non-empty) value.  On the
canonical dict representation, iterating the pairs in order is exactly
Python's `for key in sorted(dict_content.keys())` with lookup. -/
def contents (c : IntegrationHubConfig) : String :=
  String.intercalate "\n"
    ((to_dict c).filterMap fun p => if p.2 = "" then none else some (p.1 ++ "=" ++ p.2))

end IntegrationHubConfig

/-- An ops status value: kind plus message (ops `MaintenanceStatus`,
`BlockedStatus`, `ActiveStatus`). -/
inductive StatusBase
  | maintenance (msg : String)
  | blocked (msg : String)
  | activeStatus (msg : String)
deriving DecidableEq

/-- The `Status` enum of `src/core/context.py`. -/
inductive Status
  | WAITING_PEBBLE
  | INVALID_S3_CREDENTIALS
  | NOT_RUNNING
  | NOT_TRUSTED
  | MULTIPLE_OBJECT_STORAGE_RELATIONS
  | ACTIVE
deriving DecidableEq

/-- The `value` of each `Status` member, message for message as in
`src/core/context.py`. -/
def Status.value : Status → StatusBase
  | .WAITING_PEBBLE => .maintenance "Waiting for Pebble"
  | .INVALID_S3_CREDENTIALS => .blocked "Invalid S3 credentials"
  | .NOT_RUNNING => .blocked "Integration Hub is not running. Please check logs."
  | .NOT_TRUSTED => .blocked "Integration Hub is not trusted! Please check logs."
  | .MULTIPLE_OBJECT_STORAGE_RELATIONS =>
      .blocked "Integration Hub can be related to only one storage backend at a time."
  | .ACTIVE => .activeStatus ""

/-- Inputs of `BaseEventHandler.get_app_status` (`src/events/base.py`):
the three relation arguments plus the external signals the body consults —
`self.workload.ready()`, `KubernetesManager.trusted()` (network-backed
check, a boolean oracle), `S3Manager.verify()` (network-backed check,
boolean oracle) and `self.workload.active()`. -/
structure AppStatusInputs where
  workloadReady : Bool
  trusted : Bool
  s3 : Option S3ConnectionInfo
  azure_storage : Option AzureStorageConnectionInfo
  pushgateway : Option PushGatewayInfo
  s3Verify : Bool
  workloadActive : Bool

/-- `BaseEventHandler.get_app_status`, line for line: each `if` returns the
corresponding `Status` member's value; the `pushgateway` argument is
received but never consulted, exactly as in the source. -/
def get_app_status (i : AppStatusInputs) : StatusBase :=
  if !i.workloadReady then Status.WAITING_PEBBLE.value
  else if !i.trusted then Status.NOT_TRUSTED.value
  else if i.s3.isSome && i.azure_storage.isSome then
    Status.MULTIPLE_OBJECT_STORAGE_RELATIONS.value
  else if i.s3.isSome && !i.s3Verify then Status.INVALID_S3_CREDENTIALS.value
  else if !i.workloadActive then Status.NOT_RUNNING.value
  else Status.ACTIVE.value

/-- Modelled from the spec (§4.3): the abstract status resolver
`resolve(workloadReady, trustGranted, storageConflict,
storageCredentialsInvalid, workloadActive)`, five rules in strict
precedence, first match wins.  Used as the comparison point for the
refinement claim about `get_app_status`. -/
def resolveSpec (workloadReady trustGranted storageConflict storageCredentialsInvalid
    workloadActive : Bool) : Status :=
  if !workloadReady then .WAITING_PEBBLE
  else if !trustGranted then .NOT_TRUSTED
  else if storageConflict then .MULTIPLE_OBJECT_STORAGE_RELATIONS
  else if storageCredentialsInvalid then .INVALID_S3_CREDENTIALS
  else if !workloadActive then .NOT_RUNNING
  else .ACTIVE

/-- Modelled from the spec (§4.1 step 6, §6 persisted-state layout): drop
empty values, sort the remaining bindings by key lexicographically
ascending, and join as `key=value` lines.  Comparison point for the claim
about `IntegrationHubConfig.contents`. -/
def contentsSpec (d : List (String × String)) : String :=
  String.intercalate "\n"
    ((List.insertionSort keyLe (d.filter fun p => p.2 ≠ "")).map fun p => p.1 ++ "=" ++ p.2)

/-- Observable side effects on the workload and on client relations,
recorded as an event trace. -/
inductive WorkloadEvent
  | stopEvent
  | writeEvent (path content : String)
  | restartEvent
  | setEnvEvent (key value : String)
  | publishEvent (relationId : Nat) (props : Dict)
deriving DecidableEq

/-- Whether a trace entry is a client-relation publish
(`ServiceAccount.set_spark_properties`). -/
def WorkloadEvent.isPublish : WorkloadEvent → Bool
  | .publishEvent _ _ => true
  | _ => false

/-- Workload-side state: the container file system under the paths the
manager touches, plus the event trace. -/
structure WorkloadState where
  spark_properties_path : String
  files : List (String × String)
  events : List WorkloadEvent

/-- One client relation of the `spark-service-account` interface;
`app` is `relation.app` (absent while the remote application is gone). -/
structure ClientRelation where
  relationId : Nat
  app : Option String

/-- The slice of `Context` (`src/core/context.py`) consumed by the manager:
the domain objects derived from each relation, plus unit leadership. -/
structure Context where
  s3 : Option S3ConnectionInfo
  azure_storage : Option AzureStorageConnectionInfo
  pushgateway : Option PushGatewayInfo
  hub_configurations : HubConfiguration
  loki_url : Option LokiURL
  client_relations : List ClientRelation
  isLeader : Bool

/-- `Context.services_accounts`: the comprehension guard is
`if not relation or not relation.app`; relation objects are never falsy,
so the guard keeps exactly the relations whose `app` is absent.  The
result is returned as the list of relations kept (the source then wraps
each in a `ServiceAccount`). -/
def Context.services_accounts (ctx : Context) : List ClientRelation :=
  ctx.client_relations.filter fun r => !r.app.isSome

/-- A Python exception escaping a handler. -/
inductive PyError
  | nameError (name : String)
  | runtimeError (msg : String)
deriving DecidableEq

namespace IntegrationHubManager

/-- `IntegrationHubManager._compare_and_update_file`: read the file
(missing file ⇒ treated as absent), write only when the file is missing or
its content differs, and report whether a write happened. -/
def compare_and_update_file (w : WorkloadState) (content file_path : String) :
    Bool × WorkloadState :=
  match w.files.lookup file_path with
  | some existing =>
    if existing ≠ content then
      (true, { w with
                 files := upsertRaw w.files file_path content
                 events := w.events ++ [.writeEvent file_path content] })
    else (false, w)
  | none =>
    (true, { w with
               files := upsertRaw w.files file_path content
               events := w.events ++ [.writeEvent file_path content] })

/-- `IntegrationHubManager.update` with the `set_*_none` flags at their
default `False` (every call site in `src/events` uses the defaults): the
four locals are read from the context, then `self.workload.stop()` runs
unconditionally, and then the line
`config = IntegrationHubConfig(s3, azure_storage, pushgateway, hub_conf, loki_url)`
raises `NameError`, because `hub_conf` is bound nowhere in
`src/managers/integration_hub.py` (not a local, parameter, module global
or import).  Everything after that line — the compare/write, the
`SPARK_PROPERTIES_FILE` environment update, the restart, and the
leader-guarded client fan-out loop — is unreachable.  (The fan-out loop is
additionally broken on its own: it reads `self.context.service_accounts`,
an attribute `src/core/context.py` does not define — the context defines
`services_accounts`.) -/
def update (ctx : Context) (w : WorkloadState) : WorkloadState × Option PyError :=
  let _s3 := ctx.s3
  let _azure_storage := ctx.azure_storage
  let _pushgateway := ctx.pushgateway
  let _loki_url := ctx.loki_url
  let w1 : WorkloadState := { w with events := w.events ++ [.stopEvent] }
  (w1, some (.nameError "hub_conf"))

end IntegrationHubManager

/-- A `ServiceAccountRequested`/`ServiceAccountReleased` event payload
(`src/events/provider.py`). -/
structure SAEvent where
  relationId : Nat
  service_account : String
  sa_namespace : String

/-- Side effects of the provider event handlers. -/
inductive RelEvent
  | execEvent (cmd : String)
  | writeFileEvent (path : String)
  | setServiceAccountEvent (relationId : Nat) (name : String)
  | setNamespaceEvent (relationId : Nat) (ns : String)
deriving DecidableEq

/-- `IntegrationHubProviderEvents._on_service_account_requested`: the
leadership guard runs before any side effect; then the account-creation
command, the pod-template write, the `kubectl apply`, and finally the two
client-relation writes.  `createOk`, `writeOk` and `applyOk` are oracles
for the three fallible external calls; a failing call raises the
corresponding `RuntimeError` and nothing after it runs.  `podPath` stands
for `self.workload.paths.pod_template`. -/
def on_service_account_requested (isLeader : Bool) (ev : SAEvent)
    (createOk writeOk applyOk : Bool) (podPath : String) (trace : List RelEvent) :
    List RelEvent × Option PyError :=
  if !isLeader then (trace, none)
  else
    let t1 := trace ++
      [.execEvent ("python3 -m spark8t.cli.service_account_registry create --username=" ++
        ev.service_account ++ " --namespace=" ++ ev.sa_namespace)]
    if !createOk then
      (t1, some (.runtimeError ("Impossible to create service account: " ++
        ev.service_account ++ " in namespace: " ++ ev.sa_namespace)))
    else
      let t2 := t1 ++ [.writeFileEvent podPath]
      if !writeOk then (t2, some (.runtimeError "Impossible to create pod template"))
      else
        let t3 := t2 ++ [.execEvent ("kubectl apply -f " ++ podPath)]
        if !applyOk then (t3, some (.runtimeError "Impossible to create pod template"))
        else
          (t3 ++ [.setServiceAccountEvent ev.relationId ev.service_account,
                  .setNamespaceEvent ev.relationId ev.sa_namespace], none)

/-- `IntegrationHubProviderEvents._on_service_account_released`: leadership
guard first, then the account-deletion command (`deleteOk` oracle). -/
def on_service_account_released (isLeader : Bool) (ev : SAEvent) (deleteOk : Bool)
    (trace : List RelEvent) : List RelEvent × Option PyError :=
  if !isLeader then (trace, none)
  else
    let t1 := trace ++
      [.execEvent ("python3 -m spark8t.cli.service_account_registry delete --username=" ++
        ev.service_account ++ " --namespace=" ++ ev.sa_namespace)]
    if !deleteOk then
      (t1, some (.runtimeError ("Failed to delete service account: " ++
        ev.service_account ++ " in namespace: " ++ ev.sa_namespace)))
    else (t1, none)

/-- Python `str.strip()` on character lists (drop whitespace from both
ends; the inputs compared against are ASCII, where `Char.isWhitespace`
agrees with Python). -/
def trimChars (l : List Char) : List Char :=
  ((l.dropWhile Char.isWhitespace).reverse.dropWhile Char.isWhitespace).reverse

/-- Python `re.split("=| ", line)`: split at every occurrence of `=` or a
space (adjacent separators produce empty segments). -/
def splitSepEq : List Char → List (List Char)
  | [] => [[]]
  | c :: rest =>
    match splitSepEq rest with
    | [] => [[]]
    | cur :: more =>
      if c = '=' || c = ' ' then [] :: cur :: more else (c :: cur) :: more

/-- Python `line.split("=", 1)`: the part before and after the first `=`,
or `none` when the line has no `=` (where Python's indexing `[1]` would
raise `IndexError`). -/
def splitFirstEq : List Char → Option (List Char × List Char)
  | [] => none
  | c :: rest =>
    if c = '=' then some ([], rest)
    else (splitFirstEq rest).map fun p => (c :: p.1, p.2)

/-- `ConfigurationActionEvents._parse_property_line`: the key is the first
non-empty segment of the stripped line split at `=`/space (`none` models
the `IndexError` Python raises when every segment is empty); the value is
everything after the first `=` of the raw line, stripped. -/
def parse_property_line (line : String) : Option (String × String) :=
  match (splitSepEq (trimChars line.data)).filter (fun t => !t.isEmpty) with
  | [] => none
  | k :: _ =>
    match splitFirstEq line.data with
    | some (_, rest) => some (⟨k⟩, ⟨trimChars rest⟩)
    | none => none

/-- Outcome of a Juju action handler: `event.set_results`, `event.fail`, or
an exception escaping the handler. -/
inductive ActionResult
  | ok (results : List (String × String))
  | failed (msg : String)
  | errored
deriving DecidableEq

/-- `ConfigurationActionEvents._add_config_action`: readiness and
peer-relation gates, then — when the input contains `=` — parse and write
the raw binding directly into the peer databag via
`self.context.hub_configurations.relation_data.update(...)` (the direct
databag write; the serializing `HubConfiguration.update` override is not
called). -/
def add_config (ready peerExists : Bool) (conf : String) (st : RelationData) :
    ActionResult × RelationData :=
  if !ready then (.failed "Charm is not ready", st)
  else if !peerExists then (.failed "Peer relation is not ready", st)
  else if containsSub "=".data conf.data then
    match parse_property_line conf with
    | some (k, v) => (.ok [("added-config", k ++ ":" ++ v)], upsertRaw st k v)
    | none => (.errored, st)
  else (.failed ("Configuration " ++ conf ++ " cannot be applied"), st)

/-- `ConfigurationActionEvents._list_config_action`: readiness and
peer-relation gates, then report
`self.context.hub_configurations.spark_configurations`. -/
def list_config (ready peerExists : Bool) (st : RelationData) : ActionResult :=
  if !ready then .failed "Charm is not ready"
  else if !peerExists then .failed "Peer relation is not ready"
  else .ok (HubConfiguration.spark_configurations ⟨st⟩)

/-- Stated from the claim's words (C6), for comparison with the source's
`_ssl_enabled`: "true unless the endpoint is explicitly http:// or lacks
port 443; an absent/empty endpoint yields true" — i.e. "false" exactly for
an explicit `http://` endpoint without `:443`. -/
def sslEnabledClaim (endpoint : Option String) : String :=
  match endpoint with
  | none => "true"
  | some e =>
    if e = "" then "true"
    else if "http://".data.isPrefixOf e.data && !containsSub ":443".data e.data then "false"
    else "true"

/-- A fully populated S3 relation databag. -/
def s3Example : S3ConnectionInfo :=
  ⟨[("endpoint", "https://s3.example.com"), ("access-key", "AK"), ("secret-key", "SK"),
    ("bucket", "b"), ("path", "p")]⟩

/-- A fully populated Azure storage relation databag (Data-Lake protocol). -/
def azureExample : AzureStorageConnectionInfo :=
  ⟨[("container", "c"), ("storage-account", "acct"), ("secret-key", "AS"),
    ("connection-protocol", "abfss"), ("path", "q")]⟩

/-- Both storage backends present and configured at once (S3 credential
verification passing). -/
def bothBackendsConfig : IntegrationHubConfig :=
  ⟨some s3Example, true, some azureExample, none, none, none⟩

/-- An S3 relation whose endpoint has no URL scheme and no port. -/
def s3NoSchemeExample : S3ConnectionInfo :=
  ⟨[("endpoint", "s3.example.com"), ("access-key", "AK"), ("secret-key", "SK"),
    ("bucket", "b"), ("path", "p")]⟩

/-- A leader-unit context with one live client relation (remote application
present) and no published configuration anywhere. -/
def realClientContext : Context :=
  { s3 := none
    azure_storage := none
    pushgateway := none
    hub_configurations := ⟨[]⟩
    loki_url := none
    client_relations := [⟨7, some "client-app"⟩]
    isLeader := true }

theorem lexLt_asymm : ∀ a b : List Char, lexLt a b = true → lexLt b a = false := by
  intro a
  induction a with
  | nil => intro b h; cases b <;> simp [lexLt] at h ⊢
  | cons c as ih =>
    intro b h
    cases b with
    | nil => simp [lexLt] at h
    | cons d bs =>
      simp only [lexLt] at h ⊢
      by_cases h1 : c.toNat < d.toNat
      · have h2 : ¬ d.toNat < c.toNat := by omega
        simp [h1, h2]
      · by_cases h2 : d.toNat < c.toNat
        · simp [h1, h2] at h
        · simp [h1, h2] at h ⊢
          exact ih bs h

theorem lexLt_trans :
    ∀ a b c : List Char, lexLt a b = true → lexLt b c = true → lexLt a c = true := by
  intro a
  induction a with
  | nil =>
    intro b c hab hbc
    cases b with
    | nil => simp [lexLt] at hab
    | cons d bs =>
      cases c with
      | nil => simp [lexLt] at hbc
      | cons e cs => simp [lexLt]
  | cons x as ih =>
    intro b c hab hbc
    cases b with
    | nil => simp [lexLt] at hab
    | cons d bs =>
      cases c with
      | nil => simp [lexLt] at hbc
      | cons e cs =>
        simp only [lexLt] at hab hbc ⊢
        by_cases h1 : x.toNat < d.toNat
        · by_cases h2 : d.toNat < e.toNat
          · have h5 : x.toNat < e.toNat := by omega
            simp [h5]
          · by_cases h3 : e.toNat < d.toNat
            · simp [h2, h3] at hbc
            · have h5 : x.toNat < e.toNat := by omega
              simp [h5]
        · by_cases h4 : d.toNat < x.toNat
          · simp [h1, h4] at hab
          · simp only [h1, if_false, h4] at hab
            by_cases h2 : d.toNat < e.toNat
            · have h5 : x.toNat < e.toNat := by omega
              simp [h5]
            · by_cases h3 : e.toNat < d.toNat
              · simp [h2, h3] at hbc
              · simp only [h2, if_false, h3] at hbc
                have h5 : ¬ x.toNat < e.toNat := by omega
                have h6 : ¬ e.toNat < x.toNat := by omega
                simp only [h5, if_false, h6]
                exact ih bs cs hab hbc

theorem lexLt_conn :
    ∀ a b : List Char, lexLt a b = false → lexLt b a = false → a = b := by
  intro a
  induction a with
  | nil => intro b h _; cases b <;> simp [lexLt] at h ⊢
  | cons c as ih =>
    intro b h h2
    cases b with
    | nil => simp [lexLt] at h2
    | cons d bs =>
      simp only [lexLt] at h h2
      by_cases h3 : c.toNat < d.toNat
      · simp [h3] at h
      · by_cases h4 : d.toNat < c.toNat
        · simp [h3, h4] at h2
        · simp [h3, h4] at h h2
          have hc : c = d := by
            have hn : c.toNat = d.toNat := by omega
            have := congrArg Char.ofNat hn
            rwa [Char.ofNat_toNat, Char.ofNat_toNat] at this
          rw [hc, ih bs h h2]

theorem mem_dictInsert {k v : String} :
    ∀ {d : Dict} {p : String × String}, p ∈ dictInsert k v d → p = (k, v) ∨ p ∈ d := by
  intro d
  induction d with
  | nil => intro p hp; left; simpa [dictInsert] using hp
  | cons q rest ih =>
    intro p hp
    obtain ⟨k2, v2⟩ := q
    simp only [dictInsert] at hp
    by_cases h1 : lexLt k.data k2.data
    · rw [if_pos h1] at hp
      rcases List.mem_cons.mp hp with h | h
      · exact Or.inl h
      · exact Or.inr h
    · by_cases h2 : k = k2
      · rw [if_neg h1, if_pos h2] at hp
        rcases List.mem_cons.mp hp with h | h
        · exact Or.inl h
        · exact Or.inr (List.mem_cons_of_mem _ h)
      · rw [if_neg h1, if_neg h2] at hp
        rcases List.mem_cons.mp hp with h | h
        · exact Or.inr (h ▸ List.mem_cons_self _ _)
        · rcases ih h with h3 | h3
          · exact Or.inl h3
          · exact Or.inr (List.mem_cons_of_mem _ h3)

theorem dictInsert_sorted (k v : String) :
    ∀ d : Dict, DSorted d → DSorted (dictInsert k v d) := by
  intro d
  induction d with
  | nil => intro _; simp [dictInsert]
  | cons q rest ih =>
    intro hs
    obtain ⟨k2, v2⟩ := q
    obtain ⟨hhead, htail⟩ := List.pairwise_cons.mp hs
    simp only [dictInsert]
    by_cases h1 : lexLt k.data k2.data
    · rw [if_pos h1]
      refine List.pairwise_cons.mpr ⟨?_, List.pairwise_cons.mpr ⟨hhead, htail⟩⟩
      intro p hp
      rcases List.mem_cons.mp hp with h | h
      · rw [h]; exact h1
      · exact lexLt_trans _ _ _ h1 (hhead p h)
    · by_cases h2 : k = k2
      · rw [if_neg h1, if_pos h2]
        refine List.pairwise_cons.mpr ⟨?_, htail⟩
        intro p hp
        have h3 := hhead p hp
        rw [h2]
        exact h3
      · rw [if_neg h1, if_neg h2]
        refine List.pairwise_cons.mpr ⟨?_, ih htail⟩
        intro p hp
        rcases mem_dictInsert hp with h | h
        · rw [h]
          cases h3 : lexLt k2.data k.data with
          | true => exact h3
          | false =>
            exact absurd (String.ext (lexLt_conn k.data k2.data (by simpa using h1) h3)) h2
        · exact hhead p h

theorem foldl_dictInsert_sorted :
    ∀ (l : List (String × String)) (d : Dict), DSorted d →
      DSorted (l.foldl (fun acc p => dictInsert p.1 p.2 acc) d) := by
  intro l
  induction l with
  | nil => intro d h; exact h
  | cons p rest ih =>
    intro d h
    exact ih _ (dictInsert_sorted p.1 p.2 d h)

theorem dictOfList_sorted (l : List (String × String)) : DSorted (dictOfList l) :=
  foldl_dictInsert_sorted l [] List.Pairwise.nil

/-- C1: the escaping transform of `DotSerializer` is claimed to be exactly
invertible (`deserialize (serialize s) = s` for every string `s`, including
all-dot strings).  It is not: `serialize` maps both `".."` and `"_"` to
`"__"`, so it is not even injective, and `deserialize (serialize "..")`
evaluates to `"_"`, not `".."`. -/
theorem dotSerializer_roundtrip_breaks_on_consecutive_dots :
    DotSerializer.serialize ".." = "__" ∧
    DotSerializer.serialize "_" = "__" ∧
    DotSerializer.deserialize "__" = "_" ∧
    DotSerializer.deserialize (DotSerializer.serialize "..") ≠ ".." := by
  decide

/-- C3: `get_app_status` refines the spec's five-rule resolver evaluated in
strict precedence (conflict := both storage relations present, invalid
credentials := S3 present and verification failing); in particular, with
the workload ready and active, the application trusted, no storage
conflict, and S3 credential verification failing, it returns the
invalid-credentials BLOCKED status, not ACTIVE. -/
theorem get_app_status_strict_precedence :
    (∀ i : AppStatusInputs,
      get_app_status i =
        (resolveSpec i.workloadReady i.trusted (i.s3.isSome && i.azure_storage.isSome)
          (i.s3.isSome && !i.s3Verify) i.workloadActive).value) ∧
    get_app_status ⟨true, true, some ⟨[]⟩, none, none, false, true⟩ =
      StatusBase.blocked "Invalid S3 credentials" ∧
    resolveSpec true true false true true = Status.INVALID_S3_CREDENTIALS := by
  refine ⟨?_, rfl, rfl⟩
  intro i
  obtain ⟨r, t, s3, az, pg, v, a⟩ := i
  cases s3 <;> cases az <;> cases r <;> cases t <;> cases v <;> cases a <;>
    simp [get_app_status, resolveSpec, Status.value]

/-- C4 counterexample: with both storage backends present and configured
(and S3 verification passing), `to_dict` does contain keys contributed by
the storage backends — here the S3 access-key binding and the Azure
account-key binding — refuting the claim that the built mapping contains
no keys from either backend. -/
theorem bothBackends_to_dict_contains_backend_keys :
    (IntegrationHubConfig.to_dict bothBackendsConfig).lookup
        "spark.hadoop.fs.s3a.access.key" = some "AK" ∧
    (IntegrationHubConfig.to_dict bothBackendsConfig).lookup
        "spark.hadoop.fs.azure.account.key.acct.dfs.core.windows.net" = some "AS" := by
  decide

/-- C4 amended: whenever both backends are present (workload ready,
application trusted), the resolver returns the storage-conflict BLOCKED
status regardless of every other signal; the configuration merge, however,
is not suppressed — both backends' keys are merged, with the Azure values
overriding the S3 values on the shared keys (shown on `spark.eventLog.dir`). -/
theorem storage_conflict_gates_status_only :
    (∀ (s3i : S3ConnectionInfo) (azi : AzureStorageConnectionInfo)
       (pg : Option PushGatewayInfo) (verify active : Bool),
      get_app_status ⟨true, true, some s3i, some azi, pg, verify, active⟩ =
        Status.MULTIPLE_OBJECT_STORAGE_RELATIONS.value) ∧
    (IntegrationHubConfig.to_dict bothBackendsConfig).lookup "spark.eventLog.dir" =
      some "abfss://c@acct.dfs.core.windows.net/q" := by
  constructor
  · intro s3i azi pg verify active
    simp [get_app_status]
  · decide

theorem filterMap_line_eq (l : List (String × String)) :
    (l.filterMap fun p => if p.2 = "" then none else some (p.1 ++ "=" ++ p.2)) =
      (l.filter fun p => p.2 ≠ "").map fun p => p.1 ++ "=" ++ p.2 := by
  induction l with
  | nil => rfl
  | cons p rest ih =>
    by_cases h : p.2 = "" <;> simp [List.filterMap_cons, List.filter_cons, h, ih]

/-- C5: the serialized configuration equals the spec's characterization —
drop the bindings with empty value, sort the remaining bindings by key
lexicographically ascending, emit `key=value` lines joined by newlines —
and no emitted line is blank (values pass through verbatim inside the
lines by construction of `contentsSpec`). -/
theorem contents_drop_empty_sort_join :
    ∀ c : IntegrationHubConfig,
      IntegrationHubConfig.contents c = contentsSpec (IntegrationHubConfig.to_dict c) ∧
      (((IntegrationHubConfig.to_dict c).filterMap fun p =>
          if p.2 = "" then none else some (p.1 ++ "=" ++ p.2)).all fun l => !(l == "")) = true := by
  intro c
  have hd : DSorted (IntegrationHubConfig.to_dict c) := dictOfList_sorted _
  constructor
  · unfold IntegrationHubConfig.contents contentsSpec
    rw [filterMap_line_eq]
    have hsor : List.Pairwise keyLe
        ((IntegrationHubConfig.to_dict c).filter fun p => p.2 ≠ "") :=
      List.Pairwise.filter _ (hd.imp fun hab => lexLt_asymm _ _ hab)
    rw [List.Sorted.insertionSort_eq hsor]
  · rw [filterMap_line_eq, List.all_eq_true]
    intro l hl
    rw [List.mem_map] at hl
    obtain ⟨p, _, hp⟩ := hl
    have hne : p.1 ++ "=" ++ p.2 ≠ "" := by
      intro hcon
      have hdata := congrArg String.data hcon
      have h1 : ("=" : String).data = ['='] := rfl
      have h2 : ("" : String).data = [] := rfl
      rw [String.data_append, String.data_append, h1, h2] at hdata
      simp at hdata
    rw [← hp]
    simp [hne]

/-- C6 counterexample: for the schemeless endpoint `s3.example.com` the
source's `_ssl_enabled` yields `"false"`, while the claim's default-secure
reading ("true unless the endpoint is explicitly http:// or lacks port
443") yields `"true"` — the two policies disagree, so the claim as stated
fails on this endpoint. -/
theorem ssl_enabled_claim_counterexample :
    IntegrationHubConfig.ssl_enabled (some "s3.example.com") = "false" ∧
    sslEnabledClaim (some "s3.example.com") = "true" ∧
    ("false" : String) ≠ "true" := by
  decide

/-- C6 amended: the SSL-enabled value emitted into the S3 configuration is
`"true"` exactly when the endpoint is absent, empty, starts with `https:`,
or contains `:443`; every other endpoint — including schemeless or
non-http ones without an explicit port 443 — yields `"false"`. -/
theorem ssl_enabled_default_secure :
    ∀ (s : S3ConnectionInfo) (az : Option AzureStorageConnectionInfo)
      (pg : Option PushGatewayInfo) (hc : Option HubConfiguration) (lk : Option LokiURL),
      ("spark.hadoop.fs.s3a.connection.ssl.enabled",
          IntegrationHubConfig.ssl_enabled s.endpoint)
        ∈ IntegrationHubConfig.s3_conf ⟨some s, true, az, pg, hc, lk⟩ ∧
      (IntegrationHubConfig.ssl_enabled s.endpoint = "true" ↔
        (s.endpoint = none ∨ s.endpoint = some "" ∨
         (∃ e, s.endpoint = some e ∧ "https:".data.isPrefixOf e.data = true) ∨
         (∃ e, s.endpoint = some e ∧ containsSub ":443".data e.data = true))) := by
  intro s az pg hc lk
  constructor
  · simp [IntegrationHubConfig.s3_conf]
  · cases hse : s.endpoint with
    | none => simp [IntegrationHubConfig.ssl_enabled]
    | some e =>
      by_cases h1 : e = ""
      · simp [IntegrationHubConfig.ssl_enabled, h1]
      · by_cases h2 : "https:".data.isPrefixOf e.data
        · simp [IntegrationHubConfig.ssl_enabled, h1, h2]
          exact Or.inl (List.isPrefixOf_iff_prefix.mp h2)
        · by_cases h3 : containsSub ":443".data e.data
          · simp [IntegrationHubConfig.ssl_enabled, h1, h2, h3]
          · simp [IntegrationHubConfig.ssl_enabled, h1, h2, h3]
            exact fun hp => h2 (List.isPrefixOf_iff_prefix.mpr hp)

/-- Witness for the amended C6 statement at the schemeless endpoint. -/
theorem ssl_enabled_default_secure_witness :
    ("spark.hadoop.fs.s3a.connection.ssl.enabled",
        IntegrationHubConfig.ssl_enabled s3NoSchemeExample.endpoint)
      ∈ IntegrationHubConfig.s3_conf ⟨some s3NoSchemeExample, true, none, none, none, none⟩ ∧
    (IntegrationHubConfig.ssl_enabled s3NoSchemeExample.endpoint = "true" ↔
      (s3NoSchemeExample.endpoint = none ∨ s3NoSchemeExample.endpoint = some "" ∨
       (∃ e, s3NoSchemeExample.endpoint = some e ∧ "https:".data.isPrefixOf e.data = true) ∨
       (∃ e, s3NoSchemeExample.endpoint = some e ∧ containsSub ":443".data e.data = true))) :=
  ssl_enabled_default_secure s3NoSchemeExample none none none none

/-- C7 counterexample: for the input `"a b= c "`, everything before the
first `=` is `"a b"` and everything after it is `" c "`, but the action
stores the binding `("a", "c")` — the key is the first `=`/space-delimited
token and the value is whitespace-stripped. -/
theorem add_config_first_token_counterexample :
    (add_config true true "a b= c " []).2 = [("a", "c")] ∧
    [(("a" : String), ("c" : String))] ≠ [("a b", " c ")] := by
  decide

/-- C7 amended: an input containing no `=` makes the action fail with no
state mutation; an input whose key part contains no spaces and whose value
carries no surrounding whitespace — such as `key=iam=secret==` — is split
at the first `=` exactly, storing key `key` and value `iam=secret==`. -/
theorem add_config_parsing (conf : String) (st : RelationData)
    (h : containsSub "=".data conf.data = false) :
    add_config true true conf st =
      (.failed ("Configuration " ++ conf ++ " cannot be applied"), st) ∧
    add_config true true "key=iam=secret==" [] =
      (.ok [("added-config", "key:iam=secret==")], [("key", "iam=secret==")]) := by
  constructor
  · simp [add_config, h]
  · decide

/-- Witness for the amended C7 statement on a concrete `=`-free input. -/
theorem add_config_parsing_witness :
    add_config true true "abc" [("x", "y")] =
      (.failed ("Configuration " ++ "abc" ++ " cannot be applied"), [("x", "y")]) ∧
    add_config true true "key=iam=secret==" [] =
      (.ok [("added-config", "key:iam=secret==")], [("key", "iam=secret==")]) :=
  add_config_parsing "abc" [("x", "y")] (by decide)

/-- C8: the add-config action writes the raw key (`a_b`) directly into the
peer databag, bypassing the serializing `HubConfiguration.update` override,
while list-config deserializes on read — so a round trip reports `a.b`
instead of `a_b`.  The bypassed serializing path would have stored `a__b`,
which does deserialize back to `a_b`. -/
theorem add_config_bypasses_key_escaping :
    (add_config true true "a_b=v" []).2 = [("a_b", "v")] ∧
    list_config true true [("a_b", "v")] = .ok [("a.b", "v")] ∧
    (("a.b" : String), ("v" : String)) ≠ ("a_b", "v") ∧
    DotSerializer.deserialize (DotSerializer.serialize "a_b") = "a_b" ∧
    (HubConfiguration.updateData ⟨[]⟩ [("a_b", "v")]).relation_data = [("a__b", "v")] ∧
    HubConfiguration.spark_configurations ⟨[("a__b", "v")]⟩ = [("a_b", "v")] := by
  decide

theorem lookup_upsertRaw_self (d : List (String × String)) (k v : String) :
    (upsertRaw d k v).lookup k = some v := by
  induction d with
  | nil => simp [upsertRaw]
  | cons p rest ih =>
    obtain ⟨k2, v2⟩ := p
    by_cases h : k2 = k
    · simp [upsertRaw, h, List.lookup_cons]
    · have h2 : (k == k2) = false := by
        rw [beq_eq_false_iff_ne]
        exact fun hk => h hk.symm
      simp [upsertRaw, h, List.lookup_cons, h2, ih]

/-- The write-if-changed primitive is idempotent: immediately repeating
`_compare_and_update_file` with the same content performs no second
write.  (This is the convergence behaviour `update` was built around;
`update` itself never reaches it, see `IntegrationHubManager.update`.) -/
theorem compare_and_update_file_second_call_noop
    (w : WorkloadState) (content fp : String) :
    IntegrationHubManager.compare_and_update_file
        (IntegrationHubManager.compare_and_update_file w content fp).2 content fp =
      (false, (IntegrationHubManager.compare_and_update_file w content fp).2) := by
  unfold IntegrationHubManager.compare_and_update_file
  cases hl : w.files.lookup fp with
  | none => simp [hl, lookup_upsertRaw_self]
  | some existing =>
    by_cases h : existing = content
    · simp [hl, h]
    · simp [hl, h, lookup_upsertRaw_self]

/-- C2: every call to `IntegrationHubManager.update` — whatever the
connection inputs — stops the workload and then raises `NameError`
(`hub_conf` is unbound), so two consecutive calls perform zero
configuration-file writes, zero restarts, and two stops: neither the
claimed single write+restart on the first call nor the claimed no-op on
the second call happens. -/
theorem update_stops_and_raises_before_any_write :
    ∀ (ctx : Context) (w : WorkloadState),
      IntegrationHubManager.update ctx w =
        ({ w with events := w.events ++ [.stopEvent] }, some (.nameError "hub_conf")) ∧
      (IntegrationHubManager.update ctx (IntegrationHubManager.update ctx w).1).1.events =
        w.events ++ [.stopEvent, .stopEvent] := by
  intro ctx w
  refine ⟨rfl, ?_⟩
  simp [IntegrationHubManager.update]

/-- C9: no convergence pass ever publishes to a client: `update` raises
before reaching the fan-out loop (and the loop reads a context attribute
that does not exist), so its trace gains no publish event; moreover
`Context.services_accounts` — the only service-account enumeration the
context defines — filters with `not relation or not relation.app` and so
drops every live client relation, here a fresh unpublished client. -/
theorem first_convergence_publishes_no_client :
    (∀ (ctx : Context) (w : WorkloadState),
      (IntegrationHubManager.update ctx w).1.events.filter WorkloadEvent.isPublish =
        w.events.filter WorkloadEvent.isPublish) ∧
    Context.services_accounts realClientContext = [] := by
  constructor
  · intro ctx w
    simp [IntegrationHubManager.update, List.filter_append, WorkloadEvent.isPublish]
  · rfl

/-- C10: a non-leader unit never writes client relation data: both provider
handlers return before any side effect when the unit is not the leader
(the guard is the first statement of each handler), and a convergence pass
on a non-leader unit adds no publish event to the trace. -/
theorem non_leader_never_publishes :
    (∀ (ev : SAEvent) (createOk writeOk applyOk : Bool) (podPath : String)
       (tr : List RelEvent),
      on_service_account_requested false ev createOk writeOk applyOk podPath tr = (tr, none)) ∧
    (∀ (ev : SAEvent) (deleteOk : Bool) (tr : List RelEvent),
      on_service_account_released false ev deleteOk tr = (tr, none)) ∧
    (∀ (ctx : Context) (w : WorkloadState),
      (IntegrationHubManager.update { ctx with isLeader := false } w).1.events.filter
          WorkloadEvent.isPublish =
        w.events.filter WorkloadEvent.isPublish) := by
  refine ⟨?_, ?_, ?_⟩
  · intro ev createOk writeOk applyOk podPath tr; rfl
  · intro ev deleteOk tr; rfl
  · intro ctx w
    simp [IntegrationHubManager.update, List.filter_append, WorkloadEvent.isPublish]
